import Mathlib

/-!
Verification development for the Indian Mutual Funds Robo-Advisor.

The definitions below are a shallow embedding of the deterministic core of
the repository: the assumption tables (src/utils/constants.py), the goal
projection engine (src/modules/goal_path.py), the fund recommendation
engine (src/modules/recommendations.py) and the goal-record lifecycle
(src/db.py).  Numeric values are modelled as rationals; Python dicts keyed
by strings become functions into Option; a function that may emit a log
record is modelled as returning a pair whose second component records
whether a log line was emitted.
-/

namespace RoboAdvisor

/-- Return assumptions for one risk category, mirroring the per-category
dict values of CATEGORY_RETURNS in src/utils/constants.py. -/
structure ReturnAssumptions where
  conservative : ℚ
  expected : ℚ
  best_case : ℚ
deriving DecidableEq, Repr

/-- The CATEGORY_RETURNS table of src/utils/constants.py (lines 148-169,
repeated verbatim at lines 246-267): conservative / expected / best-case
annual return percentages per risk category. -/
def CATEGORY_RETURNS (risk_category : String) : Option ReturnAssumptions :=
  if risk_category = "Low Risk" then some ⟨5.4, 6.0, 6.6⟩
  else if risk_category = "Moderate Risk" then some ⟨7.2, 8.0, 8.8⟩
  else if risk_category = "Medium Risk" then some ⟨8.1, 9.0, 9.9⟩
  else if risk_category = "High Risk" then some ⟨10.8, 12.0, 13.2⟩
  else none

/-- The value stored under the "Medium Risk" key of CATEGORY_RETURNS. -/
def mediumRiskReturns : ReturnAssumptions := ⟨8.1, 9.0, 9.9⟩

/-- The CATEGORY_VOLATILITY table of src/utils/constants.py
(lines 172-177): historical volatility percentage per risk category. -/
def CATEGORY_VOLATILITY (risk_category : String) : Option ℚ :=
  if risk_category = "Low Risk" then some 3.5
  else if risk_category = "Moderate Risk" then some 5.5
  else if risk_category = "Medium Risk" then some 7.5
  else if risk_category = "High Risk" then some 13.5
  else none

/-- The RECENT_1YR_MARKET_RETURNS table of src/utils/constants.py
(lines 192-197): recent 1-year market return percentage per risk
category, used as the default input to mean reversion. -/
def RECENT_1YR_MARKET_RETURNS (risk_category : String) : Option ℚ :=
  if risk_category = "Low Risk" then some 6.2
  else if risk_category = "Moderate Risk" then some 10.5
  else if risk_category = "Medium Risk" then some 14.8
  else if risk_category = "High Risk" then some 18.2
  else none

/-- The RISK_HIERARCHY table of src/utils/constants.py (lines 136-141):
the risk-profile labels admitted for a user risk category. -/
def RISK_HIERARCHY (risk_category : String) : Option (List String) :=
  if risk_category = "High Risk" then
    some ["High Risk", "Medium Risk", "Moderate Risk", "Low Risk"]
  else if risk_category = "Medium Risk" then
    some ["Medium Risk", "Moderate Risk", "Low Risk"]
  else if risk_category = "Moderate Risk" then
    some ["Moderate Risk", "Low Risk"]
  else if risk_category = "Low Risk" then
    some ["Low Risk"]
  else none

/-- The DURATION_MAP table of src/utils/constants.py (lines 215-219):
user-facing duration string to internal duration key. -/
def DURATION_MAP (duration : String) : Option String :=
  if duration = "Less than 6 months" then some "< 6 months"
  else if duration = "6 months to 1 year" then some "6 months to 1 year"
  else if duration = "More than 1 year" then some "> 1 year"
  else none

/-- The DURATION_HIERARCHY table of src/utils/constants.py
(lines 221-225): fund duration labels admitted for an internal duration
key. -/
def DURATION_HIERARCHY (internal_duration : String) : Option (List String) :=
  if internal_duration = "< 6 months" then some ["< 6 months"]
  else if internal_duration = "6 months to 1 year" then
    some ["6 months to 1 year", "< 6 months"]
  else if internal_duration = "> 1 year" then
    some ["> 1 year", "6 months to 1 year", "< 6 months"]
  else none

/-- The ALLOWED_FUND_TYPES table of src/utils/constants.py
(lines 227-240), returned as a pair (allowed Type list, allowed Category
list) for an internal duration key. -/
def ALLOWED_FUND_TYPES (internal_duration : String) :
    Option (List String × List String) :=
  if internal_duration = "< 6 months" then
    some (["Debt", "Hybrid"],
      ["Liquid", "Ultra Short Duration", "Short Duration Debt"])
  else if internal_duration = "6 months to 1 year" then
    some (["Debt", "Hybrid"], [])
  else if internal_duration = "> 1 year" then
    some (["Debt", "Hybrid", "Equity", "Index/ETF"], [])
  else none

/-- calculate_corpus_growth of src/modules/goal_path.py (lines 36-79):
final corpus after a monthly SIP runs for the given years at the given
annual return percentage.  Python float arithmetic is modelled exactly
over the rationals; the exponent years*12 is positive in the branch where
it is taken, so Int.toNat is faithful. -/
def calculate_corpus_growth (initial_corpus monthly_sip : ℚ) (years : ℤ)
    (annual_return_pct : ℚ) : ℚ :=
  if years ≤ 0 then
    initial_corpus + monthly_sip * 12 * years
  else if annual_return_pct = 0 then
    initial_corpus + monthly_sip * 12 * years
  else
    let monthly_return_pct := annual_return_pct / 12 / 100
    let months := (years * 12).toNat
    let fv_corpus := initial_corpus * (1 + monthly_return_pct) ^ months
    let fv_sip :=
      monthly_sip * (((1 + monthly_return_pct) ^ months - 1) / monthly_return_pct)
    fv_corpus + fv_sip

/-- apply_mean_reversion, implemented identically in
src/modules/goal_path.py (lines 108-128) and
src/modules/recommendations.py (lines 106-142): if the recent 1-year
return strictly exceeds the base return plus 5 percentage points, reduce
the base return by 1 percentage point, else return it unchanged. -/
def apply_mean_reversion (base_return recent_1yr_return : ℚ) : ℚ :=
  let threshold := base_return + 5.0
  if recent_1yr_return > threshold then base_return - 1.0
  else base_return

/-- get_confidence_score, implemented identically in
src/modules/goal_path.py (lines 131-174) and
src/modules/recommendations.py (lines 145-194): weighted combination of a
volatility sub-score and a fund-age sub-score, mapped to a label. -/
def get_confidence_score (volatility : ℚ) (fund_age_years : ℤ) : String :=
  let vol_score : ℚ :=
    if volatility ≤ 5.0 then 3 else if volatility ≤ 10.0 then 2 else 1
  let age_score : ℚ :=
    if fund_age_years ≥ 10 then 3 else if fund_age_years ≥ 5 then 2 else 1
  let combined := vol_score * 0.7 + age_score * 0.3
  if combined ≥ 2.5 then "High"
  else if combined ≥ 1.5 then "Medium"
  else "Low"

/-- get_confidence_percentage of src/modules/goal_path.py
(lines 177-192): display percentage for a confidence label, defaulting to
50 for unknown labels. -/
def get_confidence_percentage (confidence_level : String) : ℤ :=
  if confidence_level = "High" then 70
  else if confidence_level = "Medium" then 50
  else if confidence_level = "Low" then 25
  else 50

namespace GoalPath

/-- get_category_return_assumptions of src/modules/goal_path.py
(lines 82-92): a plain dict .get with the Medium Risk entry as default.
The second component records whether the call emits a log record; this
function body contains no logging call, so it is always false. -/
def get_category_return_assumptions (risk_category : String) :
    ReturnAssumptions × Bool :=
  ((CATEGORY_RETURNS risk_category).getD mediumRiskReturns, false)

/-- get_category_volatility of src/modules/goal_path.py (lines 95-105):
a plain dict .get with the Medium Risk entry as default; no logging
call in the body, so the emitted-log component is always false. -/
def get_category_volatility (risk_category : String) : ℚ × Bool :=
  ((CATEGORY_VOLATILITY risk_category).getD 7.5, false)

end GoalPath

namespace Recommendations

/-- get_category_return_assumptions of src/modules/recommendations.py
(lines 67-84): looks up the category and, when absent, logs a warning and
falls back to the Medium Risk entry.  The second component records
whether the warning log record was emitted. -/
def get_category_return_assumptions (risk_category : String) :
    ReturnAssumptions × Bool :=
  match CATEGORY_RETURNS risk_category with
  | some assumptions => (assumptions, false)
  | none => (mediumRiskReturns, true)

/-- get_category_volatility of src/modules/recommendations.py
(lines 87-103): looks up the category and, when absent, logs a warning
and falls back to the Medium Risk volatility.  The second component
records whether the warning log record was emitted. -/
def get_category_volatility (risk_category : String) : ℚ × Bool :=
  match CATEGORY_VOLATILITY risk_category with
  | some volatility => (volatility, false)
  | none => (7.5, true)

end Recommendations

/-- The dict returned by calculate_goal_projections of
src/modules/goal_path.py (lines 245-255). -/
structure ProjectionResult where
  conservative : ℚ
  expected : ℚ
  best_case : ℚ
  adjusted_return : ℚ
  base_return : ℚ
  confidence : String
  confidence_percentage : ℤ
  volatility : ℚ
  mean_reversion_applied : Bool
deriving DecidableEq, Repr

/-- calculate_goal_projections of src/modules/goal_path.py
(lines 194-255): resolve the recent 1-year return (caller value, else
the RECENT_1YR_MARKET_RETURNS entry, else the expected base return),
mean-revert only the expected leg, and grow the corpus under each of the
three return assumptions. -/
def calculate_goal_projections (corpus sip : ℚ) (horizon : ℤ)
    (risk_category : String) (recent_1yr_return : Option ℚ) :
    ProjectionResult :=
  let assumptions := (GoalPath.get_category_return_assumptions risk_category).1
  let base_return := assumptions.expected
  let recent : ℚ :=
    match recent_1yr_return with
    | none => (RECENT_1YR_MARKET_RETURNS risk_category).getD base_return
    | some r => r
  let adjusted_return := apply_mean_reversion base_return recent
  let conservative :=
    calculate_corpus_growth corpus sip horizon assumptions.conservative
  let expected := calculate_corpus_growth corpus sip horizon adjusted_return
  let best_case :=
    calculate_corpus_growth corpus sip horizon assumptions.best_case
  let volatility := (GoalPath.get_category_volatility risk_category).1
  let confidence := get_confidence_score volatility 10
  let confidence_pct := get_confidence_percentage confidence
  let mean_reversion_applied := decide (adjusted_return ≠ base_return)
  { conservative := conservative
    expected := expected
    best_case := best_case
    adjusted_return := adjusted_return
    base_return := base_return
    confidence := confidence
    confidence_percentage := confidence_pct
    volatility := volatility
    mean_reversion_applied := mean_reversion_applied }

/-- One row of the fund catalog dataframe consumed by
filter_and_sort_recommendations (src/modules/recommendations.py), with
the columns the function reads. -/
structure Fund where
  fund_name : String
  risk_profile : String
  duration : String
  fund_type : String
  fund_category : String
  min_investment : ℚ
  rating : ℚ
  return_5y : ℚ
  return_3y : ℚ
  exp_ratio : ℚ
deriving DecidableEq, Repr

/-- The four sort columns of the ranking step, in sort order:
rating, 5-year return, 3-year return, expense ratio. -/
def fundKey (f : Fund) : ℚ × ℚ × ℚ × ℚ :=
  (f.rating, f.return_5y, f.return_3y, f.exp_ratio)

/-- Lexicographic sort key realising
sort_values(by=[rating, return_5y, return_3y, exp_ratio],
ascending=[False, False, False, True]) of
src/modules/recommendations.py (lines 264-267): the three descending
columns are negated so that the standard lexicographic order on the
components ranks higher ratings and returns first and lower expense
ratios first. -/
def fundSortKey (f : Fund) : ℚ ×ₗ ℚ ×ₗ ℚ ×ₗ ℚ :=
  toLex (-f.rating, toLex (-f.return_5y, toLex (-f.return_3y, f.exp_ratio)))

/-- The total preorder used by the ranking step: a fund precedes another
when its sort key is lexicographically no greater. -/
def fundLe (a b : Fund) : Prop :=
  fundSortKey a ≤ fundSortKey b

instance : DecidableRel fundLe :=
  fun a b => inferInstanceAs (Decidable (fundSortKey a ≤ fundSortKey b))

instance : IsTotal Fund fundLe :=
  ⟨fun a b => le_total (fundSortKey a) (fundSortKey b)⟩

instance : IsTrans Fund fundLe :=
  ⟨fun _ _ _ h1 h2 => le_trans h1 h2⟩

/-- The allowed_risk_profiles local of filter_and_sort_recommendations
(src/modules/recommendations.py line 243):
RISK_HIERARCHY.get(risk_category, [risk_category]). -/
def allowed_risk_profiles (risk_category : String) : List String :=
  (RISK_HIERARCHY risk_category).getD [risk_category]

/-- Step 1 of filter_and_sort_recommendations
(src/modules/recommendations.py line 246): keep funds whose risk_profile
is in the allowed risk profiles. -/
def df_step1 (df : List Fund) (risk_category : String) : List Fund :=
  df.filter fun f => decide (f.risk_profile ∈ allowed_risk_profiles risk_category)

/-- Step 2 of filter_and_sort_recommendations
(src/modules/recommendations.py line 249): keep funds whose
min_investment does not exceed the investment amount. -/
def df_step2 (df : List Fund) (risk_category : String)
    (investment_amount : ℚ) : List Fund :=
  (df_step1 df risk_category).filter fun f =>
    decide (f.min_investment ≤ investment_amount)

/-- Step 3 of filter_and_sort_recommendations
(src/modules/recommendations.py lines 252-253): keep funds whose
duration label is in DURATION_HIERARCHY.get(internal_duration,
[internal_duration]). -/
def df_step3 (df : List Fund) (risk_category : String)
    (investment_amount : ℚ) (internal_duration : String) : List Fund :=
  let allowed_durations :=
    (DURATION_HIERARCHY internal_duration).getD [internal_duration]
  (df_step2 df risk_category investment_amount).filter fun f =>
    decide (f.duration ∈ allowed_durations)

/-- Step 4 of filter_and_sort_recommendations
(src/modules/recommendations.py lines 256-261): when ALLOWED_FUND_TYPES
has rules for the internal duration, keep funds of an allowed fund type
and, when the category allow-list is non-empty, of an allowed fund
category. -/
def df_step4 (df : List Fund) (risk_category : String)
    (investment_amount : ℚ) (internal_duration : String) : List Fund :=
  match ALLOWED_FUND_TYPES internal_duration with
  | none => df_step3 df risk_category investment_amount internal_duration
  | some (types, cats) =>
    let byType :=
      (df_step3 df risk_category investment_amount internal_duration).filter
        fun f => decide (f.fund_type ∈ types)
    if cats.isEmpty then byType
    else byType.filter fun f => decide (f.fund_category ∈ cats)

/-- drop_duplicates(subset=[fund_name], keep=first) of
src/modules/recommendations.py (line 270), threading the set of
fund names already seen. -/
def dropDupAux (seen : List String) : List Fund → List Fund
  | [] => []
  | f :: rest =>
    if f.fund_name ∈ seen then dropDupAux seen rest
    else f :: dropDupAux (f.fund_name :: seen) rest

/-- De-duplication by fund name keeping the first occurrence. -/
def drop_duplicates_by_fund_name (l : List Fund) : List Fund :=
  dropDupAux [] l

/-- filter_and_sort_recommendations of src/modules/recommendations.py
(lines 224-272): risk filter, affordability filter, duration filter,
fund-type filter, stable sort by the ranking key, then de-duplication by
fund name.  The pandas multi-column sort_values is a stable sort
(numpy lexsort), modelled by insertion sort, which is stable. -/
def filter_and_sort_recommendations (df : List Fund) (risk_category : String)
    (investment_amount : ℚ) (duration : String) : List Fund :=
  let internal_duration := (DURATION_MAP duration).getD ""
  let sorted_df :=
    List.insertionSort fundLe
      (df_step4 df risk_category investment_amount internal_duration)
  drop_duplicates_by_fund_name sorted_df

/-- One row of the goals table of src/db.py (schema lines 96-118), with
the columns written by save_goal, mark_goal_email_sent and
mark_goal_revisited.  Timestamps are opaque strings; the clock value
produced by datetime.utcnow() is passed in explicitly. -/
structure GoalRecord where
  goal_id : String
  registration_id : Option ℤ
  corpus : ℚ
  sip : ℚ
  horizon : ℤ
  risk_category : String
  conservative_projection : ℚ
  expected_projection : ℚ
  best_case_projection : ℚ
  confidence : String
  adjusted_return : ℚ
  created_at : String
  updated_at : String
  status : String
  email_sent_at : Option String
  revisited_at : Option String
deriving DecidableEq, Repr

/-- save_goal of src/db.py (lines 396-465): inserts a fresh row with
status saved; the email_sent_at and revisited_at columns are not in the
insert column list, so they take their NULL schema default.  The now
argument models the datetime.utcnow() value stored in updated_at. -/
def save_goal (goal_id : String) (registration_id : Option ℤ)
    (corpus sip : ℚ) (horizon : ℤ) (risk_category : String)
    (conservative_projection expected_projection best_case_projection : ℚ)
    (confidence : String) (adjusted_return : ℚ)
    (created_at now : String) : GoalRecord :=
  { goal_id := goal_id
    registration_id := registration_id
    corpus := corpus
    sip := sip
    horizon := horizon
    risk_category := risk_category
    conservative_projection := conservative_projection
    expected_projection := expected_projection
    best_case_projection := best_case_projection
    confidence := confidence
    adjusted_return := adjusted_return
    created_at := created_at
    updated_at := now
    status := "saved"
    email_sent_at := none
    revisited_at := none }

/-- mark_goal_email_sent of src/db.py (lines 517-539): unconditionally
sets status to email_sent and stamps email_sent_at and updated_at with
the current clock value. -/
def mark_goal_email_sent (now : String) (g : GoalRecord) : GoalRecord :=
  { g with status := "email_sent", email_sent_at := some now, updated_at := now }

/-- mark_goal_revisited of src/db.py (lines 542-564): unconditionally
sets status to revisited and stamps revisited_at and updated_at with the
current clock value. -/
def mark_goal_revisited (now : String) (g : GoalRecord) : GoalRecord :=
  { g with status := "revisited", revisited_at := some now, updated_at := now }

/-- A status-transition operation on a stored goal record, tagged with
the clock value observed when it runs. -/
inductive GoalOp where
  | markEmailSent (now : String)
  | markRevisited (now : String)
deriving DecidableEq, Repr

/-- Run one transition operation on a goal record. -/
def runGoalOp (g : GoalRecord) : GoalOp → GoalRecord
  | GoalOp.markEmailSent now => mark_goal_email_sent now g
  | GoalOp.markRevisited now => mark_goal_revisited now g

/-- Run a sequence of transition operations on a goal record. -/
def runGoalOps (g : GoalRecord) : List GoalOp → GoalRecord
  | [] => g
  | op :: rest => runGoalOps (runGoalOp g op) rest

/-- Confidence scoring written from the specification text (spec §4.2):
volatility sub-score (3 if v ≤ 5.0, 2 if v ≤ 10.0, else 1) weighted 0.7,
age sub-score (3 if a ≥ 10, 2 if a ≥ 5, else 1) weighted 0.3, combined
value mapped to High when ≥ 2.5, Medium when ≥ 1.5, Low otherwise.  Used
to compare the implementation against the spec wording. -/
def confidence_score_spec (volatilityPct : ℚ) (fundAgeYears : ℤ) : String :=
  let volSub : ℚ :=
    if volatilityPct ≤ 5.0 then 3 else if volatilityPct ≤ 10.0 then 2 else 1
  let ageSub : ℚ :=
    if fundAgeYears ≥ 10 then 3 else if fundAgeYears ≥ 5 then 2 else 1
  let combined := volSub * 0.7 + ageSub * 0.3
  if combined ≥ 2.5 then "High"
  else if combined ≥ 1.5 then "Medium"
  else "Low"

/-- A concrete catalog row: a Low Risk equity fund with a long duration
label and a 500 rupee minimum investment. -/
def fundA : Fund :=
  { fund_name := "Alpha Fund"
    risk_profile := "Low Risk"
    duration := "> 1 year"
    fund_type := "Equity"
    fund_category := "Flexi Cap"
    min_investment := 500
    rating := 5
    return_5y := 12.0
    return_3y := 10.0
    exp_ratio := 0.5 }

/-- A concrete freshly saved goal record. -/
def goalRecordA : GoalRecord :=
  save_goal "GOAL_20251208_ABC12" (some 1) 500000 10000 5 "Medium Risk"
    700000 800000 900000 "Medium" 8.0
    "2025-12-08T10:00:00" "2025-12-08T10:00:00"

end RoboAdvisor

namespace RoboAdvisor

/-- Mean reversion leaves a base return unchanged when the recent return
equals it: the strict threshold cannot fire. -/
theorem apply_mean_reversion_self (b : ℚ) : apply_mean_reversion b b = b := by
  unfold apply_mean_reversion
  rw [if_neg]
  intro h
  linarith

/-- Claim C2: the mean-reversion adjustment returns b − 1.0 exactly when
the recent return strictly exceeds b + 5.0 and b unchanged otherwise; it
is never upward and its magnitude is exactly one percentage point; the
boundary adjust(9.0, 14.0) does not trigger while adjust(9.0, 14.1)
does. -/
theorem claim_C2_mean_reversion (b r : ℚ) :
    (r > b + 5.0 → apply_mean_reversion b r = b - 1.0) ∧
    (r ≤ b + 5.0 → apply_mean_reversion b r = b) ∧
    apply_mean_reversion b r ≤ b ∧
    (apply_mean_reversion b r = b ∨ apply_mean_reversion b r = b - 1.0) ∧
    apply_mean_reversion 9.0 14.0 = 9.0 ∧
    apply_mean_reversion 9.0 14.1 = 8.0 := by
  have hval : apply_mean_reversion b r = if r > b + 5.0 then b - 1.0 else b := rfl
  by_cases h : r > b + 5.0
  · rw [hval, if_pos h]
    exact ⟨fun _ => rfl, fun hle => absurd h (not_lt.mpr hle), by linarith,
      Or.inr rfl, by norm_num [apply_mean_reversion],
      by norm_num [apply_mean_reversion]⟩
  · rw [hval, if_neg h]
    exact ⟨fun hgt => absurd hgt h, fun _ => rfl, le_refl b, Or.inl rfl,
      by norm_num [apply_mean_reversion], by norm_num [apply_mean_reversion]⟩

/-- Claim C5: the corpus growth function is linear in years when
years ≤ 0 or when the rate is 0, and otherwise equals the lump-sum
future value plus the ordinary-annuity future value at the monthly rate
rate/12/100 over years × 12 months. -/
theorem claim_C5_corpus_growth (ic ms : ℚ) (years : ℤ) (rate : ℚ) :
    (years ≤ 0 →
      calculate_corpus_growth ic ms years rate = ic + ms * 12 * (years : ℚ)) ∧
    (rate = 0 →
      calculate_corpus_growth ic ms years rate = ic + ms * 12 * (years : ℚ)) ∧
    (0 < years → rate ≠ 0 →
      calculate_corpus_growth ic ms years rate =
        ic * (1 + rate / 12 / 100) ^ (years * 12).toNat +
          ms * (((1 + rate / 12 / 100) ^ (years * 12).toNat - 1) /
            (rate / 12 / 100))) ∧
    (0 < years → ((years * 12).toNat : ℤ) = years * 12) := by
  have hval : calculate_corpus_growth ic ms years rate =
      if years ≤ 0 then ic + ms * 12 * (years : ℚ)
      else if rate = 0 then ic + ms * 12 * (years : ℚ)
      else ic * (1 + rate / 12 / 100) ^ (years * 12).toNat +
        ms * (((1 + rate / 12 / 100) ^ (years * 12).toNat - 1) /
          (rate / 12 / 100)) := rfl
  refine ⟨fun h => ?_, fun h => ?_, fun h1 h2 => ?_, fun h1 => ?_⟩
  · rw [hval, if_pos h]
  · rw [hval]
    by_cases hy : years ≤ 0
    · rw [if_pos hy]
    · rw [if_neg hy, if_pos h]
  · rw [hval, if_neg (not_le.mpr h1), if_neg h2]
  · omega

/-- Witness for claim C5: each branch evaluated at a concrete input,
including a negative-years input. -/
theorem claim_C5_witness :
    calculate_corpus_growth 1000 10 (-2) 8 = 1000 + 10 * 12 * ((-2 : ℤ) : ℚ) ∧
    calculate_corpus_growth 1000 10 3 0 = 1000 + 10 * 12 * ((3 : ℤ) : ℚ) ∧
    calculate_corpus_growth 1000 10 1 12 =
      1000 * (1 + 12 / 12 / 100) ^ ((1 : ℤ) * 12).toNat +
        10 * (((1 + 12 / 12 / 100) ^ ((1 : ℤ) * 12).toNat - 1) /
          (12 / 12 / 100)) :=
  ⟨(claim_C5_corpus_growth 1000 10 (-2) 8).1 (by norm_num),
   (claim_C5_corpus_growth 1000 10 3 0).2.1 rfl,
   (claim_C5_corpus_growth 1000 10 1 12).2.2.1 (by norm_num) (by norm_num)⟩

/-- Claim C7: the confidence score agrees with the weighted sub-score
combination described by the spec, and takes the four quoted values. -/
theorem claim_C7_confidence (v : ℚ) (a : ℤ) :
    get_confidence_score v a = confidence_score_spec v a ∧
    get_confidence_score 3.5 10 = "High" ∧
    get_confidence_score 7.5 10 = "Medium" ∧
    get_confidence_score 15.0 2 = "Low" ∧
    get_confidence_score 15.0 10 = "Medium" := by
  refine ⟨rfl, ?_, ?_, ?_, ?_⟩ <;> norm_num [get_confidence_score]

/-- Claim C9, amended: unknown risk categories resolve to the Medium
Risk entries in all four lookup helpers; the recommendations-module
helpers emit a warning log record, while the goal_path-module helpers
substitute without emitting any log record. -/
theorem claim_C9_amended_fallbacks (rc : String)
    (hr : CATEGORY_RETURNS rc = none) (hv : CATEGORY_VOLATILITY rc = none) :
    Recommendations.get_category_return_assumptions rc = (mediumRiskReturns, true) ∧
    Recommendations.get_category_volatility rc = (7.5, true) ∧
    GoalPath.get_category_return_assumptions rc = (mediumRiskReturns, false) ∧
    GoalPath.get_category_volatility rc = (7.5, false) := by
  unfold Recommendations.get_category_return_assumptions
    Recommendations.get_category_volatility
    GoalPath.get_category_return_assumptions
    GoalPath.get_category_volatility
  rw [hr, hv]
  exact ⟨rfl, rfl, rfl, rfl⟩

/-- Counterexample to claim C9 as stated: in the goal_path module the
Medium Risk substitution for an unknown category happens with no log
record emitted, so the substitution is silent there. -/
theorem claim_C9_counterexample :
    GoalPath.get_category_return_assumptions "Unknown Risk" = (mediumRiskReturns, false) ∧
    GoalPath.get_category_volatility "Unknown Risk" = (7.5, false) :=
  ⟨rfl, rfl⟩

/-- Witness for claim C9 at the concrete unknown category "Unknown". -/
theorem claim_C9_witness :
    Recommendations.get_category_return_assumptions "Unknown" = (mediumRiskReturns, true) ∧
    GoalPath.get_category_volatility "Unknown" = (7.5, false) := by
  have h := claim_C9_amended_fallbacks "Unknown" rfl rfl
  exact ⟨h.1, h.2.2.2⟩

/-- Claim C10: for a category absent from the recent-returns table and
no caller-supplied recent return, the substituted recent return is the
expected base return itself, so mean reversion cannot fire: the adjusted
return equals the base return and the flag is false, for every corpus,
sip and horizon. -/
theorem claim_C10_absent_recent (corpus sip : ℚ) (horizon : ℤ) (rc : String)
    (h : RECENT_1YR_MARKET_RETURNS rc = none) :
    (calculate_goal_projections corpus sip horizon rc none).adjusted_return =
      (calculate_goal_projections corpus sip horizon rc none).base_return ∧
    (calculate_goal_projections corpus sip horizon rc none).mean_reversion_applied
      = false := by
  have hadj : (calculate_goal_projections corpus sip horizon rc none).adjusted_return =
      apply_mean_reversion (GoalPath.get_category_return_assumptions rc).1.expected
        ((RECENT_1YR_MARKET_RETURNS rc).getD
          (GoalPath.get_category_return_assumptions rc).1.expected) := rfl
  have hbase : (calculate_goal_projections corpus sip horizon rc none).base_return =
      (GoalPath.get_category_return_assumptions rc).1.expected := rfl
  have hflag : (calculate_goal_projections corpus sip horizon rc none).mean_reversion_applied =
      decide ((calculate_goal_projections corpus sip horizon rc none).adjusted_return ≠
        (calculate_goal_projections corpus sip horizon rc none).base_return) := rfl
  have hA : (calculate_goal_projections corpus sip horizon rc none).adjusted_return =
      (calculate_goal_projections corpus sip horizon rc none).base_return := by
    rw [hadj, hbase, h, Option.getD_none, apply_mean_reversion_self]
  refine ⟨hA, ?_⟩
  rw [hflag, hA]
  simp

/-- Witness for claim C10 at the concrete absent category
"Custom Risk". -/
theorem claim_C10_witness :
    (calculate_goal_projections 1000 10 5 "Custom Risk" none).adjusted_return =
      (calculate_goal_projections 1000 10 5 "Custom Risk" none).base_return ∧
    (calculate_goal_projections 1000 10 5 "Custom Risk" none).mean_reversion_applied
      = false :=
  claim_C10_absent_recent 1000 10 5 "Custom Risk" rfl

/-- Claim C1: calculate_goal_projections computes the conservative and
best-case legs from the unadjusted base returns, the expected leg from
the mean-reversion-adjusted expected return, resolves the recent return
as the caller value when supplied (else the recent-returns table entry
for the category), and sets the mean-reversion flag iff the adjusted
return differs from the expected base return. -/
theorem claim_C1_goal_projections (corpus sip : ℚ) (horizon : ℤ)
    (rc : String) (recentOpt : Option ℚ) :
    (calculate_goal_projections corpus sip horizon rc recentOpt).conservative =
      calculate_corpus_growth corpus sip horizon
        (GoalPath.get_category_return_assumptions rc).1.conservative ∧
    (calculate_goal_projections corpus sip horizon rc recentOpt).best_case =
      calculate_corpus_growth corpus sip horizon
        (GoalPath.get_category_return_assumptions rc).1.best_case ∧
    (calculate_goal_projections corpus sip horizon rc recentOpt).adjusted_return =
      apply_mean_reversion (GoalPath.get_category_return_assumptions rc).1.expected
        (match recentOpt with
          | none => (RECENT_1YR_MARKET_RETURNS rc).getD
              (GoalPath.get_category_return_assumptions rc).1.expected
          | some r => r) ∧
    (calculate_goal_projections corpus sip horizon rc recentOpt).expected =
      calculate_corpus_growth corpus sip horizon
        (calculate_goal_projections corpus sip horizon rc recentOpt).adjusted_return ∧
    ((calculate_goal_projections corpus sip horizon rc recentOpt).mean_reversion_applied
        = true ↔
      (calculate_goal_projections corpus sip horizon rc recentOpt).adjusted_return ≠
        (GoalPath.get_category_return_assumptions rc).1.expected) ∧
    (∀ r, recentOpt = some r →
      (calculate_goal_projections corpus sip horizon rc recentOpt).adjusted_return =
        apply_mean_reversion
          (GoalPath.get_category_return_assumptions rc).1.expected r) ∧
    (recentOpt = none → ∀ v, RECENT_1YR_MARKET_RETURNS rc = some v →
      (calculate_goal_projections corpus sip horizon rc recentOpt).adjusted_return =
        apply_mean_reversion
          (GoalPath.get_category_return_assumptions rc).1.expected v) := by
  refine ⟨rfl, rfl, rfl, rfl, ?_, ?_, ?_⟩
  · have hflag : (calculate_goal_projections corpus sip horizon rc recentOpt).mean_reversion_applied =
        decide ((calculate_goal_projections corpus sip horizon rc recentOpt).adjusted_return ≠
          (GoalPath.get_category_return_assumptions rc).1.expected) := rfl
    rw [hflag]
    exact decide_eq_true_iff
  · intro r hr
    subst hr
    rfl
  · intro hnone v hv
    subst hnone
    have hadj : (calculate_goal_projections corpus sip horizon rc none).adjusted_return =
        apply_mean_reversion (GoalPath.get_category_return_assumptions rc).1.expected
          ((RECENT_1YR_MARKET_RETURNS rc).getD
            (GoalPath.get_category_return_assumptions rc).1.expected) := rfl
    rw [hadj, hv, Option.getD_some]

/-- Witness for claim C1: the Medium Risk category with no caller
value draws 14.8 from the recent-returns table, which fires mean
reversion; a caller-supplied 10.0 does not. -/
theorem claim_C1_witness :
    (calculate_goal_projections 500000 10000 5 "Medium Risk" none).mean_reversion_applied
      = true ∧
    (calculate_goal_projections 500000 10000 5 "Medium Risk" none).adjusted_return =
      apply_mean_reversion
        (GoalPath.get_category_return_assumptions "Medium Risk").1.expected 14.8 ∧
    (calculate_goal_projections 500000 10000 5 "Medium Risk" (some 10)).adjusted_return =
      apply_mean_reversion
        (GoalPath.get_category_return_assumptions "Medium Risk").1.expected 10 := by
  have h := claim_C1_goal_projections 500000 10000 5 "Medium Risk" none
  have h2 := claim_C1_goal_projections 500000 10000 5 "Medium Risk" (some 10)
  refine ⟨h.2.2.2.2.1.mpr ?_, h.2.2.2.2.2.2 rfl 14.8 rfl, h2.2.2.2.2.2.1 10 rfl⟩
  have hadj : (calculate_goal_projections 500000 10000 5 "Medium Risk" none).adjusted_return
      = 8 := by
    rw [h.2.2.2.2.2.2 rfl 14.8 rfl]
    simp [apply_mean_reversion, GoalPath.get_category_return_assumptions,
      CATEGORY_RETURNS, mediumRiskReturns]
    norm_num
  rw [hadj]
  simp [GoalPath.get_category_return_assumptions, CATEGORY_RETURNS,
    mediumRiskReturns]
  norm_num

/-- Claim C6: for each known risk category, the risk-inclusion filter
keeps exactly the catalog funds whose risk-profile label is in the
downward-inclusive admitted set of that category. -/
theorem claim_C6_risk_inclusion (df : List Fund) (f : Fund) :
    (f ∈ df_step1 df "High Risk" ↔ f ∈ df ∧
      f.risk_profile ∈ ["High Risk", "Medium Risk", "Moderate Risk", "Low Risk"]) ∧
    (f ∈ df_step1 df "Medium Risk" ↔ f ∈ df ∧
      f.risk_profile ∈ ["Medium Risk", "Moderate Risk", "Low Risk"]) ∧
    (f ∈ df_step1 df "Moderate Risk" ↔ f ∈ df ∧
      f.risk_profile ∈ ["Moderate Risk", "Low Risk"]) ∧
    (f ∈ df_step1 df "Low Risk" ↔ f ∈ df ∧ f.risk_profile ∈ ["Low Risk"]) := by
  refine ⟨?_, ?_, ?_, ?_⟩ <;>
    simp [df_step1, allowed_risk_profiles, RISK_HIERARCHY, List.mem_filter]

/-- Counterexample to claim C4 as stated: with an unknown duration
label, a catalog whose only fund survives the risk and affordability
filters nevertheless produces an empty result, because the duration
filter then admits only funds whose duration field is the empty
string. -/
theorem claim_C4_counterexample :
    filter_and_sort_recommendations [fundA] "Low Risk" 1000 "bogus duration" = [] ∧
    df_step2 [fundA] "Low Risk" 1000 = [fundA] :=
  ⟨rfl, rfl⟩

/-- Claim C4, amended: an unknown duration label maps to the internal
key "", which skips the fund-type/category rule but still applies the
duration-membership filter with admitted set containing only "": the
result is the de-duplicated ranked list of the risk- and
affordability-surviving funds whose duration field is the empty
string. -/
theorem claim_C4_amended (df : List Fund) (rc : String) (amt : ℚ)
    (dur : String) (h : DURATION_MAP dur = none) :
    filter_and_sort_recommendations df rc amt dur =
      drop_duplicates_by_fund_name (List.insertionSort fundLe
        ((df_step2 df rc amt).filter fun f => decide (f.duration = ""))) := by
  have hA0 : df_step4 df rc amt "" =
      (df_step2 df rc amt).filter
        (fun f => decide (f.duration ∈ ([""] : List String))) := rfl
  have hA1 : (df_step2 df rc amt).filter
        (fun f => decide (f.duration ∈ ([""] : List String))) =
      (df_step2 df rc amt).filter (fun f => decide (f.duration = "")) :=
    List.filter_congr (fun x _ => by simp)
  show drop_duplicates_by_fund_name (List.insertionSort fundLe
      (df_step4 df rc amt ((DURATION_MAP dur).getD ""))) = _
  rw [h, Option.getD_none, hA0, hA1]

/-- Witness for claim C4 at the concrete unknown label
"bogus duration". -/
theorem claim_C4_witness :
    filter_and_sort_recommendations [fundA] "Low Risk" 1000 "bogus duration" =
      drop_duplicates_by_fund_name (List.insertionSort fundLe
        ((df_step2 [fundA] "Low Risk" 1000).filter
          fun f => decide (f.duration = ""))) :=
  claim_C4_amended [fundA] "Low Risk" 1000 "bogus duration" rfl

/-- Counterexample to claim C8 as stated: after markEmailSent,
markRevisited moves the record email_sent → revisited (a transition the
claim does not allow), and a second markEmailSent returns it to
email_sent, a status it had already left. -/
theorem claim_C8_counterexample :
    (runGoalOps goalRecordA [GoalOp.markEmailSent "t1"]).status = "email_sent" ∧
    (runGoalOps goalRecordA
      [GoalOp.markEmailSent "t1", GoalOp.markRevisited "t2"]).status = "revisited" ∧
    (runGoalOps goalRecordA
      [GoalOp.markEmailSent "t1", GoalOp.markRevisited "t2",
        GoalOp.markEmailSent "t3"]).status = "email_sent" :=
  ⟨rfl, rfl, rfl⟩

/-- Claim C8, amended: a freshly saved record has status saved with
null transition timestamps; markEmailSent always sets status email_sent
stamping email_sent_at and the last-modified timestamp; markRevisited
always sets status revisited stamping revisited_at and the last-modified
timestamp; and once a record has left status saved no sequence of
transition operations returns it to saved — but email_sent and revisited
are mutually reachable, so statuses other than saved can recur. -/
theorem claim_C8_amended :
    (∀ gid rid corpus sip horizon rc cons expd best conf adj created now,
      (save_goal gid rid corpus sip horizon rc cons expd best conf adj
          created now).status = "saved" ∧
      (save_goal gid rid corpus sip horizon rc cons expd best conf adj
          created now).email_sent_at = none ∧
      (save_goal gid rid corpus sip horizon rc cons expd best conf adj
          created now).revisited_at = none ∧
      (save_goal gid rid corpus sip horizon rc cons expd best conf adj
          created now).updated_at = now) ∧
    (∀ g now, (mark_goal_email_sent now g).status = "email_sent" ∧
      (mark_goal_email_sent now g).email_sent_at = some now ∧
      (mark_goal_email_sent now g).updated_at = now ∧
      (mark_goal_email_sent now g).revisited_at = g.revisited_at) ∧
    (∀ g now, (mark_goal_revisited now g).status = "revisited" ∧
      (mark_goal_revisited now g).revisited_at = some now ∧
      (mark_goal_revisited now g).updated_at = now ∧
      (mark_goal_revisited now g).email_sent_at = g.email_sent_at) ∧
    (∀ g ops, g.status ≠ "saved" → (runGoalOps g ops).status ≠ "saved") := by
  refine ⟨fun _ _ _ _ _ _ _ _ _ _ _ _ _ => ⟨rfl, rfl, rfl, rfl⟩,
    fun _ _ => ⟨rfl, rfl, rfl, rfl⟩,
    fun _ _ => ⟨rfl, rfl, rfl, rfl⟩, ?_⟩
  intro g ops
  induction ops generalizing g with
  | nil => exact fun h => h
  | cons op rest ih =>
    intro _
    show (runGoalOps (runGoalOp g op) rest).status ≠ "saved"
    apply ih
    cases op with
    | markEmailSent now => simp [runGoalOp, mark_goal_email_sent]
    | markRevisited now => simp [runGoalOp, mark_goal_revisited]

/-- Witness for claim C8: a concrete record that has moved to
email_sent stays away from saved under a further transition, and a
concrete fresh save has status saved. -/
theorem claim_C8_witness :
    (runGoalOps (mark_goal_email_sent "t1" goalRecordA)
      [GoalOp.markRevisited "t2"]).status ≠ "saved" ∧
    (save_goal "G1" none 1 1 1 "Low Risk" 1 1 1 "High" 6 "c0" "n0").status
      = "saved" := by
  have h := claim_C8_amended
  refine ⟨h.2.2.2 (mark_goal_email_sent "t1" goalRecordA)
    [GoalOp.markRevisited "t2"] ?_,
    (h.1 "G1" none 1 1 1 "Low Risk" 1 1 1 "High" 6 "c0" "n0").1⟩
  simp [mark_goal_email_sent]

/-- Two funds with identical sort columns are mutually related by the
ranking order. -/
theorem fundLe_of_fundKey_eq {a b : Fund} (h : fundKey a = fundKey b) :
    fundLe a b := by
  have h1 : a.rating = b.rating := congrArg (fun p => p.1) h
  have h2 : a.return_5y = b.return_5y := congrArg (fun p => p.2.1) h
  have h3 : a.return_3y = b.return_3y := congrArg (fun p => p.2.2.1) h
  have h4 : a.exp_ratio = b.exp_ratio := congrArg (fun p => p.2.2.2) h
  unfold fundLe fundSortKey
  rw [h1, h2, h3, h4]

/-- De-duplication returns a sublist of its input, for any set of
already-seen names. -/
theorem dropDupAux_sublist (seen : List String) (l : List Fund) :
    List.Sublist (dropDupAux seen l) l := by
  induction l generalizing seen with
  | nil => exact List.Sublist.refl []
  | cons f rest ih =>
    unfold dropDupAux
    by_cases h : f.fund_name ∈ seen
    · rw [if_pos h]
      exact (ih seen).cons f
    · rw [if_neg h]
      exact (ih (f.fund_name :: seen)).cons₂ f

/-- All funds sharing one value of the sort columns are pairwise related
by the ranking order. -/
theorem pairwise_fundLe_filter_key (k : ℚ × ℚ × ℚ × ℚ) (l : List Fund) :
    (l.filter fun f => decide (fundKey f = k)).Pairwise fundLe := by
  induction l with
  | nil => simp
  | cons a rest ih =>
    rw [List.filter_cons]
    by_cases h : fundKey a = k
    · rw [if_pos (by simpa using h)]
      refine List.Pairwise.cons (fun b hb => ?_) ih
      have hbk : fundKey b = k := by simpa using (List.mem_filter.mp hb).2
      exact fundLe_of_fundKey_eq (h.trans hbk.symm)
    · rw [if_neg (by simpa using h)]
      exact ih

/-- Stability of the ranking sort: restricting the sorted list to any
one value of the sort columns gives exactly the corresponding
restriction of the input, in input order. -/
theorem filter_key_insertionSort (k : ℚ × ℚ × ℚ × ℚ) (l : List Fund) :
    (List.insertionSort fundLe l).filter (fun f => decide (fundKey f = k)) =
      l.filter (fun f => decide (fundKey f = k)) := by
  have hsub : List.Sublist (l.filter (fun f => decide (fundKey f = k)))
      (List.insertionSort fundLe l) :=
    List.sublist_insertionSort (pairwise_fundLe_filter_key k l)
      (List.filter_sublist l)
  have hself : (l.filter (fun f => decide (fundKey f = k))).filter
        (fun f => decide (fundKey f = k)) =
      l.filter (fun f => decide (fundKey f = k)) :=
    List.filter_eq_self.mpr (fun a ha => (List.mem_filter.mp ha).2)
  have h2 : List.Sublist (l.filter (fun f => decide (fundKey f = k)))
      ((List.insertionSort fundLe l).filter (fun f => decide (fundKey f = k))) := by
    have h0 := hsub.filter (fun f => decide (fundKey f = k))
    rwa [hself] at h0
  have hlen : ((List.insertionSort fundLe l).filter
        (fun f => decide (fundKey f = k))).length =
      (l.filter (fun f => decide (fundKey f = k))).length :=
    ((List.perm_insertionSort fundLe l).filter _).length_eq
  exact (h2.eq_of_length hlen.symm).symm

/-- The four filter steps produce a sublist of the catalog. -/
theorem df_step4_sublist (df : List Fund) (rc : String) (amt : ℚ)
    (idur : String) : List.Sublist (df_step4 df rc amt idur) df := by
  have h1 : List.Sublist (df_step1 df rc) df := List.filter_sublist _
  have h2 : List.Sublist (df_step2 df rc amt) (df_step1 df rc) := List.filter_sublist _
  have h3 : List.Sublist (df_step3 df rc amt idur) (df_step2 df rc amt) :=
    List.filter_sublist _
  have h123 : List.Sublist (df_step3 df rc amt idur) df := (h3.trans h2).trans h1
  unfold df_step4
  split
  · exact h123
  · dsimp only
    split
    · exact (List.filter_sublist _).trans h123
    · exact ((List.filter_sublist _).trans (List.filter_sublist _)).trans h123

/-- Claim C3: the engine output is sorted by rating descending, then
5-year return descending, then 3-year return descending, then expense
ratio ascending, and the sort is stable: funds with identical sort
columns appear in the output in their original catalog order. -/
theorem claim_C3_ranking_stable (df : List Fund) (rc : String) (amt : ℚ)
    (dur : String) :
    (∀ a b : Fund, fundLe a b ↔
      b.rating < a.rating ∨ (a.rating = b.rating ∧
        (b.return_5y < a.return_5y ∨ (a.return_5y = b.return_5y ∧
          (b.return_3y < a.return_3y ∨ (a.return_3y = b.return_3y ∧
            a.exp_ratio ≤ b.exp_ratio)))))) ∧
    List.Sorted fundLe (filter_and_sort_recommendations df rc amt dur) ∧
    (∀ k : ℚ × ℚ × ℚ × ℚ,
      List.Sublist
        ((filter_and_sort_recommendations df rc amt dur).filter
          (fun f => decide (fundKey f = k)))
        (df.filter (fun f => decide (fundKey f = k)))) := by
  refine ⟨fun a b => ?_, ?_, fun k => ?_⟩
  · unfold fundLe fundSortKey
    simp [Prod.Lex.le_iff, neg_lt_neg_iff, neg_inj]
  · show List.Sorted fundLe (drop_duplicates_by_fund_name
      (List.insertionSort fundLe (df_step4 df rc amt ((DURATION_MAP dur).getD ""))))
    exact List.Pairwise.sublist (dropDupAux_sublist [] _)
      (List.sorted_insertionSort fundLe _)
  · show List.Sublist
      ((drop_duplicates_by_fund_name (List.insertionSort fundLe
        (df_step4 df rc amt ((DURATION_MAP dur).getD "")))).filter
          (fun f => decide (fundKey f = k)))
      (df.filter (fun f => decide (fundKey f = k)))
    have hd : List.Sublist
        ((drop_duplicates_by_fund_name (List.insertionSort fundLe
          (df_step4 df rc amt ((DURATION_MAP dur).getD "")))).filter
            (fun f => decide (fundKey f = k)))
        ((List.insertionSort fundLe
          (df_step4 df rc amt ((DURATION_MAP dur).getD ""))).filter
            (fun f => decide (fundKey f = k))) :=
      (dropDupAux_sublist [] _).filter _
    rw [filter_key_insertionSort] at hd
    exact hd.trans ((df_step4_sublist df rc amt _).filter _)

/-- Witness for claim C2 at concrete inputs on both sides of the
threshold. -/
theorem claim_C2_witness :
    apply_mean_reversion 9.0 15.0 = 8.0 ∧ apply_mean_reversion 9.0 10.0 = 9.0 := by
  constructor
  · have h := (claim_C2_mean_reversion 9.0 15.0).1 (by norm_num)
    rw [h]
    norm_num
  · exact (claim_C2_mean_reversion 9.0 10.0).2.1 (by norm_num)

end RoboAdvisor
